import Mathlib

-- Shallow embedding of the NEXUS MCP Orchestrator backend (src/server.js).
-- The repository ships two near-identical implementations of the backend in
-- server.js (a first, minimal variant, and a second, more verbose variant);
-- definitions below carry the suffix V1 for the first variant and V2 for the
-- second.  Timestamps (Date.now(), sent_at) are modelled as integers
-- (milliseconds since the epoch; the ISO-8601 string comparison used by the
-- SQL cooldown query agrees with the numeric order).  UUIDs produced by
-- crypto.randomUUID() are modelled as a fresh supply of natural numbers
-- threaded through as a counter.  External I/O (Groq completions, the GitHub
-- API, the libSQL store) is modelled by outcome oracles supplied as
-- parameters: each awaited call either returns a value or throws, which the
-- embedding represents with Except.

namespace NexusMCP

/-- Status of a Groq credential, 'active' or 'rate_limited' in the source. -/
inductive AgentStatus
  | active
  | rate_limited
deriving DecidableEq, Repr

/-- Embeds the usage record { requests, limit, resetAt } held by each agent of
the AgentPool. -/
structure Usage where
  requests : Nat
  limit : Nat
  resetAt : Int
deriving DecidableEq, Repr

/-- Embeds one agent of the AgentPool.  The Groq client handle is represented
by the API key it wraps. -/
structure Agent where
  id : String
  apiKey : String
  model : String
  usage : Usage
  status : AgentStatus
deriving DecidableEq, Repr

/-- Mutable state of the AgentPool: the agents array and the round-robin
cursor this.currentIndex. -/
structure PoolState where
  agents : List Agent
  currentIndex : Nat
deriving DecidableEq, Repr

/-- Embeds the filter over the four GROQ_API_KEY_i environment slots in
AgentPool.initializeAgents: keys.filter(key => key && key.length > 0).
An unset variable is None, a set one is Some of its value. -/
def filterGroqKeys (keys : List (Option String)) : List String :=
  keys.filterMap fun k =>
    match k with
    | some s => if 0 < s.length then some s else none
    | none => none

/-- Embeds AgentPool.initializeAgents (identical in both variants): throws
when no non-empty key is configured, otherwise builds one agent per key with
usage { requests: 0, limit: 30, resetAt: now + 60000 } and status 'active'. -/
def initializeAgents (keys : List (Option String)) (now : Int) : Except String (List Agent) :=
  let ks := filterGroqKeys keys
  if ks.length = 0 then
    .error "At least one GROQ_API_KEY must be configured"
  else
    .ok (ks.enum.map fun p =>
      { id := "agent-" ++ toString (p.1 + 1)
        apiKey := p.2
        model := "llama-3.1-70b-versatile"
        usage := { requests := 0, limit := 30, resetAt := now + 60000 }
        status := .active })

/-- Exhaustion message thrown by getNextAgent in the first variant. -/
def exhaustMsgV1 : String := "All agents rate limited. Please wait."

/-- Exhaustion message thrown by getNextAgent in the second variant. -/
def exhaustMsgV2 : String := "All agents are rate limited. Please wait."

/-- Embeds the for-loop of getNextAgent in the first variant.  The loop runs
at most agents.length times; each iteration reads the agent under the cursor,
advances the cursor, skips the agent if its usage has reached its limit,
otherwise resets it when its window elapsed (writing the reset back into the
array, since the JS agent is a shared reference) and returns it.  The fuel
argument is the remaining number of iterations; the out-of-range array read
(never reached for a cursor below the array length) is mapped to the throw. -/
def getNextAgentLoopV1 : Nat → Int → PoolState → Except String (Nat × PoolState)
  | 0, _, _ => .error exhaustMsgV1
  | i + 1, now, st =>
    let idx := st.currentIndex
    match st.agents[idx]? with
    | none => .error exhaustMsgV1
    | some agent =>
      let st1 : PoolState := ⟨st.agents, (idx + 1) % st.agents.length⟩
      if agent.usage.limit ≤ agent.usage.requests then
        getNextAgentLoopV1 i now st1
      else if agent.usage.resetAt ≤ now then
        let agent1 : Agent :=
          { agent with usage := { agent.usage with requests := 0, resetAt := now + 60000 } }
        .ok (idx, ⟨st1.agents.set idx agent1, st1.currentIndex⟩)
      else
        .ok (idx, st1)

/-- Embeds AgentPool.getNextAgent of the first variant (no global sweep; the
quota check precedes the window-reset check, and status is never consulted).
Returns the index of the chosen agent together with the updated pool state. -/
def getNextAgentV1 (now : Int) (st : PoolState) : Except String (Nat × PoolState) :=
  getNextAgentLoopV1 st.agents.length now st

/-- In the second variant the sweep at the top of getNextAgent tests
now >= agent.resetAt, but the agent object has no top-level resetAt property
(the timestamp lives at agent.usage.resetAt), so in JavaScript the comparison
is now >= undefined, which is always false.  Modelled literally as the
constant-false test. -/
def jsNowGeUndefined (_now : Int) : Bool := false

/-- Embeds the this.agents.forEach sweep at the top of getNextAgent in the
second variant ("Reset usage if window passed").  Because its condition reads
the nonexistent top-level resetAt property, the reset branch is dead code. -/
def sweepResetV2 (now : Int) (agents : List Agent) : List Agent :=
  agents.map fun agent =>
    if jsNowGeUndefined now then
      { agent with
          usage := { agent.usage with requests := 0, resetAt := now + 60000 }
          status := .active }
    else agent

/-- Embeds the availability test of the second variant's getNextAgent:
agent.status === 'active' && agent.usage.requests < agent.usage.limit. -/
def eligibleV2 (agent : Agent) : Bool :=
  decide (agent.status = AgentStatus.active) && decide (agent.usage.requests < agent.usage.limit)

/-- Embeds the round-robin for-loop of the second variant's getNextAgent. -/
def getNextAgentLoopV2 : Nat → PoolState → Except String (Nat × PoolState)
  | 0, _ => .error exhaustMsgV2
  | i + 1, st =>
    let idx := st.currentIndex
    match st.agents[idx]? with
    | none => .error exhaustMsgV2
    | some agent =>
      let st1 : PoolState := ⟨st.agents, (idx + 1) % st.agents.length⟩
      if eligibleV2 agent then .ok (idx, st1) else getNextAgentLoopV2 i st1

/-- Embeds AgentPool.getNextAgent of the second variant: the (dead) lazy
sweep, then one full rotation looking for an active agent under quota. -/
def getNextAgentV2 (now : Int) (st : PoolState) : Except String (Nat × PoolState) :=
  let st0 : PoolState := ⟨sweepResetV2 now st.agents, st.currentIndex⟩
  getNextAgentLoopV2 st0.agents.length st0

/-- Outcome of one awaited Groq chat-completion call.  rateLimitError stands
for a thrown error whose message contains the substring 'rate limit' (the
shape tested by error.message.includes('rate limit')); otherError for any
other thrown error. -/
inductive CallOutcome
  | success (text : String)
  | rateLimitError (msg : String)
  | otherError (msg : String)
deriving DecidableEq, Repr

/-- Writes agent.usage.requests++ back into the pool (the JS agent object is
shared with the array entry). -/
def bumpUsage (st : PoolState) (idx : Nat) : PoolState :=
  match st.agents[idx]? with
  | some a =>
    ⟨st.agents.set idx { a with usage := { a.usage with requests := a.usage.requests + 1 } },
     st.currentIndex⟩
  | none => st

/-- Writes agent.status = 'rate_limited' back into the pool. -/
def markRateLimited (st : PoolState) (idx : Nat) : PoolState :=
  match st.agents[idx]? with
  | some a => ⟨st.agents.set idx { a with status := .rate_limited }, st.currentIndex⟩
  | none => st

/-- Embeds AgentPool.execute of the first variant.  The oracle gives the
outcome of the k-th completion call issued by the process; fuel bounds the
recursion depth (None means the recursion did not complete within fuel
steps); now is held fixed across the retry chain.  On success the chosen
agent's usage counter is incremented and the text returned; on a rate-limit
shaped error the agent is marked rate_limited and execute recurses with the
same prompt; any other error propagates; a getNextAgent throw propagates. -/
def executeV1 (oracle : Nat → CallOutcome) (now : Int) :
    Nat → Nat → PoolState → Option (Except String (String × PoolState × Nat))
  | 0, _, _ => none
  | fuel + 1, k, st =>
    match getNextAgentV1 now st with
    | .error e => some (.error e)
    | .ok (idx, st1) =>
      match oracle k with
      | .success text => some (.ok (text, bumpUsage st1 idx, k + 1))
      | .rateLimitError _ => executeV1 oracle now fuel (k + 1) (markRateLimited st1 idx)
      | .otherError msg => some (.error msg)

/-- Embeds AgentPool.execute of the second variant (same logic as the first,
but acquiring through the second variant's getNextAgent). -/
def executeV2 (oracle : Nat → CallOutcome) (now : Int) :
    Nat → Nat → PoolState → Option (Except String (String × PoolState × Nat))
  | 0, _, _ => none
  | fuel + 1, k, st =>
    match getNextAgentV2 now st with
    | .error e => some (.error e)
    | .ok (idx, st1) =>
      match oracle k with
      | .success text => some (.ok (text, bumpUsage st1 idx, k + 1))
      | .rateLimitError _ => executeV2 oracle now fuel (k + 1) (markRateLimited st1 idx)
      | .otherError msg => some (.error msg)

/-- Embeds the analysis object parsed from (or defaulted for) the model's
response in AIAnalyzer.analyzeServer, and the mcp_servers row shape derived
from it.  Scores are JSON numbers, modelled as rationals. -/
structure Analysis where
  score : Rat
  code_quality : Rat
  security : Rat
  documentation : Rat
  mcp_compliance : Rat
  maintenance : Bool
  category : String
  features : List String
  recommendations : List String
deriving DecidableEq, Repr

/-- Outcome of one analyzeServer attempt, combining the awaited
agentPool.execute call with the JSON extraction that follows it: the response
contained a brace-delimited object that parsed into an analysis (parsed), the
response contained no brace-delimited object (noJson), JSON.parse threw
(parseFailed), or the completion call itself threw (serviceFailed). -/
inductive AnalyzeOutcome
  | parsed (a : Analysis)
  | noJson
  | parseFailed (msg : String)
  | serviceFailed (msg : String)
deriving DecidableEq, Repr

/-- The default analysis returned by the first variant's analyzeServer when
no parsed object is obtained. -/
def defaultAnalysisV1 : Analysis :=
  { score := 5, code_quality := 5, security := 5, documentation := 5, mcp_compliance := 5
    maintenance := false, category := "utility", features := [], recommendations := [] }

/-- The default analysis returned by the second variant's analyzeServer when
no parsed object is obtained; unlike the first variant it carries one fixed
recommendation string. -/
def defaultAnalysisV2 : Analysis :=
  { score := 5, code_quality := 5, security := 5, documentation := 5, mcp_compliance := 5
    maintenance := false, category := "utility", features := []
    recommendations := ["Unable to analyze - please check repository"] }

/-- Embeds AIAnalyzer.analyzeServer of the first variant: a parsed object is
returned as is; every other outcome (no JSON found, parse error, or a thrown
completion call, all swallowed by the try/catch) falls through to the
default. -/
def analyzeServerV1 : AnalyzeOutcome → Analysis
  | .parsed a => a
  | _ => defaultAnalysisV1

/-- Embeds AIAnalyzer.analyzeServer of the second variant (same control flow;
a missing object throws 'No valid JSON in AI response' into the same catch),
returning the second variant's default. -/
def analyzeServerV2 : AnalyzeOutcome → Analysis
  | .parsed a => a
  | _ => defaultAnalysisV2

/-- Embeds a GitHub issue hit returned by the matcher's
search.issuesAndPullRequests call.  The repo_owner and repo_name fields stand
for components [4] and [5] of issue.repository_url.split('/'), which in the
GitHub API URL scheme are the owner login and the repository name. -/
structure Issue where
  repo_owner : String
  repo_name : String
  number : Nat
  html_url : String
  title : String
deriving DecidableEq, Repr

/-- Embeds the { score, reason } judgment object parsed from (or defaulted
for) a calculateRelevance response. -/
structure Judgment where
  score : Rat
  reason : String
deriving DecidableEq, Repr

/-- Outcome of one calculateRelevance attempt (same JSON extraction as the
analyzer). -/
inductive RelevanceOutcome
  | parsed (j : Judgment)
  | noJson
  | parseFailed (msg : String)
  | serviceFailed (msg : String)
deriving DecidableEq, Repr

/-- Embeds MCPMatcher.calculateRelevance: the parsed judgment, or the default
{ score: 0.0, reason: 'Unable to calculate relevance' } on any failure (the
first variant's default reason is 'Unable to calculate'; the score default is
0.0 in both). -/
def calculateRelevance : RelevanceOutcome → Judgment
  | .parsed j => j
  | _ => { score := 0, reason := "Unable to calculate relevance" }

/-- Embeds a row pushed into the matches list by MCPMatcher.findMatches (the
second variant's shape; the first omits user_issue_number).  created_at is an
ISO string, kept opaque. -/
structure MatchRec where
  id : Nat
  server_id : Nat
  user_repo_owner : String
  user_repo_name : String
  user_issue_number : Nat
  user_issue_url : String
  relevance : Rat
  reason : String
  features : String
  status : String
  created_at : String
deriving DecidableEq, Repr

/-- Embeds JSON.stringify on an array of strings (escaping inside the strings
is not modelled). -/
def jsonStringifyList (xs : List String) : String :=
  "[" ++ String.intercalate "," (xs.map fun s => "\"" ++ s ++ "\"") ++ "]"

/-- Embeds a candidate server row built by GitHubScanner.scanNewServers (the
discovery-timestamp field created_at added by the second variant carries no
logic and is omitted). -/
structure Server where
  id : Nat
  repo_owner : String
  repo_name : String
  repo_url : String
  stars : Nat
  forks : Nat
  last_updated : String
deriving DecidableEq, Repr

/-- Builds the match object pushed by findMatches for one accepted issue. -/
def mkMatchRec (server : Server) (analysis : Analysis) (issue : Issue) (j : Judgment)
    (uuid : Nat) (nowStr : String) : MatchRec :=
  { id := uuid
    server_id := server.id
    user_repo_owner := issue.repo_owner
    user_repo_name := issue.repo_name
    user_issue_number := issue.number
    user_issue_url := issue.html_url
    relevance := j.score
    reason := j.reason
    features := jsonStringifyList analysis.features
    status := "pending"
    created_at := nowStr }

/-- Embeds the for-loop of MCPMatcher.findMatches: for each issue hit, judge
relevance (relOutcome gives the outcome of that issue's completion call) and
push a match exactly when relevance.score >= 0.7; uuid is the fresh-id
counter for crypto.randomUUID(). -/
def findMatchesLoop (server : Server) (analysis : Analysis)
    (relOutcome : Issue → RelevanceOutcome) (nowStr : String) :
    List Issue → Nat → List MatchRec
  | [], _ => []
  | issue :: rest, uuid =>
    let j := calculateRelevance (relOutcome issue)
    if (7 : Rat) / 10 ≤ j.score then
      mkMatchRec server analysis issue j uuid nowStr ::
        findMatchesLoop server analysis relOutcome nowStr rest (uuid + 1)
    else
      findMatchesLoop server analysis relOutcome nowStr rest uuid

/-- Embeds MCPMatcher.findMatches: a thrown issue-search call is caught and
yields an empty match list; otherwise the loop above runs over the hits. -/
def findMatches (server : Server) (analysis : Analysis)
    (searchResult : Except String (List Issue))
    (relOutcome : Issue → RelevanceOutcome) (uuid0 : Nat) (nowStr : String) : List MatchRec :=
  match searchResult with
  | .error _ => []
  | .ok issues => findMatchesLoop server analysis relOutcome nowStr issues uuid0

/-- Embeds a row of the notifications table (the second variant's shape,
which adds issue_number).  sent_at is a millisecond timestamp. -/
structure NotifRecord where
  id : Nat
  type : String
  target_repo_owner : String
  target_repo_name : String
  issue_number : Nat
  issue_url : String
  server_id : Nat
  sent_at : Int
deriving DecidableEq, Repr

/-- Embeds NotificationManager.checkNotificationCooldown (checkCooldown in
the first variant): true when no notifications row for the target has
sent_at strictly newer than now minus the cooldown. -/
def checkNotificationCooldown (db : List NotifRecord) (owner repo : String)
    (now cooldownMs : Int) : Bool :=
  let cutoff := now - cooldownMs
  decide ((db.filter fun r =>
    decide (r.target_repo_owner = owner) && decide (r.target_repo_name = repo)
      && decide (cutoff < r.sent_at)).length = 0)

/-- Reference to the GitHub issue created by octokit.issues.create. -/
structure IssueRef where
  number : Nat
  html_url : String
deriving DecidableEq, Repr

/-- Structured result returned by notifyMaintainer: { success: true,
issueUrl } or { success: false, reason }. -/
structure NotifyResult where
  success : Bool
  reason : Option String
  issueUrl : Option String
deriving DecidableEq, Repr

/-- Outcomes of the awaited/fallible steps inside one notifyMaintainer call:
template construction (string building over the analysis object, which can
throw in JS when a field has an unexpected shape), the octokit issue
creation, and the notifications INSERT; plus the fresh id, the current time
and the configured cooldown (NOTIFICATION_COOLDOWN_MS, default 3600000). -/
structure NotifyEffects where
  templateOutcome : Except String Unit
  issueOutcome : Except String IssueRef
  insertOutcome : Except String Unit
  uuid : Nat
  now : Int
  cooldownMs : Int
deriving Repr

/-- Embeds NotificationManager.notifyMaintainer: the whole body sits in one
try/catch, so a throw from any step surfaces as { success: false, reason }.
A cooldown hit returns { success: false, reason: 'cooldown' } before any
send.  Only the fully successful path appends a notifications row; the
function returns the result together with the (possibly extended) table. -/
def notifyMaintainer (db : List NotifRecord) (server : Server) (eff : NotifyEffects) :
    NotifyResult × List NotifRecord :=
  if checkNotificationCooldown db server.repo_owner server.repo_name eff.now eff.cooldownMs then
    match eff.templateOutcome with
    | .error e => ({ success := false, reason := some e, issueUrl := none }, db)
    | .ok _ =>
      match eff.issueOutcome with
      | .error e => ({ success := false, reason := some e, issueUrl := none }, db)
      | .ok issue =>
        match eff.insertOutcome with
        | .error e => ({ success := false, reason := some e, issueUrl := none }, db)
        | .ok _ =>
          ({ success := true, reason := none, issueUrl := some issue.html_url },
           db ++ [{ id := eff.uuid, type := "maintainer"
                    target_repo_owner := server.repo_owner
                    target_repo_name := server.repo_name
                    issue_number := issue.number, issue_url := issue.html_url
                    server_id := server.id, sent_at := eff.now }])
  else
    ({ success := false, reason := some "cooldown", issueUrl := none }, db)

/-- Embeds one item of the GitHub repo-search result as consumed by
scanNewServers (owner_login is repo.owner.login; the pair (owner_login, name)
is also what repo.full_name splits into). -/
structure RepoItem where
  owner_login : String
  name : String
  html_url : String
  stargazers_count : Nat
  forks_count : Nat
  updated_at : String
deriving DecidableEq, Repr

/-- Embeds GitHubScanner.checkIfExists: the store's mcp_servers rows are
represented by their (repo_owner, repo_name) key pairs; the SELECT returns a
row exactly when the key pair is present. -/
def checkIfExists (store : List (String × String)) (owner name : String) : Bool :=
  decide (0 < (store.filter fun r => decide (r.1 = owner) && decide (r.2 = name)).length)

/-- Embeds the for-loop of GitHubScanner.scanNewServers: repos already in
the store are skipped; a new repo becomes a candidate with a fresh id from
the uuid counter. -/
def scanNewServersLoop (store : List (String × String)) :
    List RepoItem → Nat → List Server
  | [], _ => []
  | repo :: rest, uuid =>
    if checkIfExists store repo.owner_login repo.name then
      scanNewServersLoop store rest uuid
    else
      { id := uuid, repo_owner := repo.owner_login, repo_name := repo.name
        repo_url := repo.html_url, stars := repo.stargazers_count
        forks := repo.forks_count, last_updated := repo.updated_at }
        :: scanNewServersLoop store rest (uuid + 1)

/-- Embeds GitHubScanner.scanNewServers: a thrown search call propagates
(fatal for discovery); otherwise the loop filters the hits against the
store. -/
def scanNewServers (searchResult : Except String (List RepoItem))
    (store : List (String × String)) (uuid0 : Nat) : Except String (List Server) :=
  match searchResult with
  | .error e => .error e
  | .ok items => .ok (scanNewServersLoop store items uuid0)

/-- Result object returned by BackendService.scanAndAnalyze: { success: true,
processed } or { success: false, error }. -/
structure ScanRunResult where
  success : Bool
  processed : Option Nat
  error : Option String
deriving DecidableEq, Repr

/-- Per-run environment of the orchestrator.  Discovery yields a candidate
list or throws; per candidate, the readme fetch, the analysis and the match
search never throw (their internal error handling is proved on their own
embeddings), so the environment supplies their results as total functions of
the candidate; the two INSERTs into the store may throw; notifyMaintainer
always returns a structured result.  The second variant's package.json fetch
(best-effort, absorbed into the analysis oracle) is not separated out. -/
structure OrchEnv where
  scanResult : Except String (List Server)
  readme : Server → String
  analysis : Server → Analysis
  insertServer : Server → Analysis → Except String Unit
  foundMatches : Server → Analysis → List MatchRec
  insertMatch : MatchRec → Except String Unit
  notify : Server → Analysis → List MatchRec → NotifyResult

/-- Embeds the for-loop saving matches: the first throwing INSERT aborts the
candidate. -/
def insertMatchesLoop (ins : MatchRec → Except String Unit) :
    List MatchRec → Except String Unit
  | [] => .ok ()
  | m :: rest =>
    match ins m with
    | .error e => .error e
    | .ok _ => insertMatchesLoop ins rest

/-- Embeds the notification gate of scanAndAnalyze (identical in both
variants): matches.length > 0 && analysis.score >= 7.0. -/
def notifyGate (ms : List MatchRec) (analysis : Analysis) : Bool :=
  decide (0 < ms.length) && decide ((7 : Rat) ≤ analysis.score)

/-- Embeds the body processing one candidate inside scanAndAnalyze (shared by
both variants): fetch the readme, analyze, INSERT the server row, find and
INSERT the matches, and invoke the notifier exactly when the gate passes.
Returns whether the notifier was invoked; a throwing INSERT propagates. -/
def processServerBody (env : OrchEnv) (server : Server) : Except String Bool :=
  let _readme := env.readme server
  let analysis := env.analysis server
  match env.insertServer server analysis with
  | .error e => .error e
  | .ok _ =>
    let ms := env.foundMatches server analysis
    match insertMatchesLoop env.insertMatch ms with
    | .error e => .error e
    | .ok _ =>
      if notifyGate ms analysis then
        let _ := env.notify server analysis ms
        .ok true
      else
        .ok false

/-- Embeds the candidate loop of the first variant's scanAndAnalyze, which
has no per-candidate try/catch: the first throw aborts the remaining
candidates. -/
def processAllV1 (env : OrchEnv) : List Server → Except String Unit
  | [] => .ok ()
  | s :: rest =>
    match processServerBody env s with
    | .error e => .error e
    | .ok _ => processAllV1 env rest

/-- Embeds BackendService.scanAndAnalyze of the first variant: one try/catch
around discovery and the whole candidate loop. -/
def scanAndAnalyzeV1 (env : OrchEnv) : ScanRunResult :=
  match env.scanResult with
  | .error e => { success := false, processed := none, error := some e }
  | .ok servers =>
    match processAllV1 env servers with
    | .error e => { success := false, processed := none, error := some e }
    | .ok _ => { success := true, processed := some servers.length, error := none }

/-- Embeds the per-candidate try/catch of the second variant's
scanAndAnalyze: a throw while processing one candidate is caught and logged,
and the loop moves on (false records that the notifier was not reached). -/
def processServerV2 (env : OrchEnv) (server : Server) : Bool :=
  match processServerBody env server with
  | .error _ => false
  | .ok notified => notified

/-- Embeds BackendService.scanAndAnalyze of the second variant.  The second
component is a ghost trace recording, per candidate, whether the notifier
was invoked; it observes that every candidate of the batch is processed. -/
def scanAndAnalyzeV2 (env : OrchEnv) : ScanRunResult × List Bool :=
  match env.scanResult with
  | .error e => ({ success := false, processed := none, error := some e }, [])
  | .ok servers =>
    ({ success := true, processed := some servers.length, error := none },
     servers.map (processServerV2 env))

-- Concrete fixtures used by the per-claim theorems and witnesses below.

/-- Pool with a single credential at its quota (30/30) whose rolling window
has elapsed (resetAt 60000, inspected at time 200000). -/
def poolC2 : PoolState :=
  ⟨[{ id := "agent-1", apiKey := "k1", model := "llama-3.1-70b-versatile"
      usage := { requests := 30, limit := 30, resetAt := 60000 }, status := .active }], 0⟩

/-- One-candidate server fixture for the orchestrator counterexample. -/
def serverC1 : Server :=
  { id := 0, repo_owner := "o1", repo_name := "r1", repo_url := "u1"
    stars := 1, forks := 0, last_updated := "2024-12-01" }

/-- A second server fixture for the orchestrator witness. -/
def serverC1b : Server :=
  { id := 1, repo_owner := "o2", repo_name := "r2", repo_url := "u2"
    stars := 2, forks := 0, last_updated := "2024-12-02" }

/-- Environment in which discovery succeeds with one candidate but the
mcp_servers INSERT for that candidate throws. -/
def envC1 : OrchEnv :=
  { scanResult := .ok [serverC1]
    readme := fun _ => ""
    analysis := fun _ => defaultAnalysisV1
    insertServer := fun _ _ => .error "db write failed"
    foundMatches := fun _ _ => []
    insertMatch := fun _ => .ok ()
    notify := fun _ _ _ => { success := true, reason := none, issueUrl := none } }

/-- Environment with two candidates whose first candidate's INSERT throws,
for the second variant's per-candidate isolation. -/
def envC1W : OrchEnv :=
  { scanResult := .ok [serverC1, serverC1b]
    readme := fun _ => ""
    analysis := fun _ => defaultAnalysisV1
    insertServer := fun s _ => if s.id = 0 then .error "db write failed" else .ok ()
    foundMatches := fun _ _ => []
    insertMatch := fun _ => .ok ()
    notify := fun _ _ _ => { success := true, reason := none, issueUrl := none } }

/-- Environment in which the discovery call itself throws. -/
def envC1E : OrchEnv :=
  { envC1 with scanResult := .error "github 401" }

/-- Analysis fixture with overall score exactly 7.0. -/
def analysisC8 : Analysis :=
  { score := 7, code_quality := 8, security := 8, documentation := 8, mcp_compliance := 8
    maintenance := true, category := "data", features := ["files"], recommendations := [] }

/-- Match fixture with relevance exactly 0.70. -/
def matchC8 : MatchRec :=
  { id := 1, server_id := 3, user_repo_owner := "u", user_repo_name := "n"
    user_issue_number := 5, user_issue_url := "iu", relevance := 7 / 10, reason := "fits"
    features := jsonStringifyList ["files"], status := "pending", created_at := "t" }

/-- Server fixture for the notification-gate witness. -/
def serverC8 : Server :=
  { id := 3, repo_owner := "o8", repo_name := "r8", repo_url := "u8"
    stars := 2, forks := 1, last_updated := "2025-01-01" }

/-- Environment reaching the notification gate with score 7.0 and one match
at relevance 0.70. -/
def envC8 : OrchEnv :=
  { scanResult := .ok [serverC8]
    readme := fun _ => ""
    analysis := fun _ => analysisC8
    insertServer := fun _ _ => .ok ()
    foundMatches := fun _ _ => [matchC8]
    insertMatch := fun _ => .ok ()
    notify := fun _ _ _ => { success := true, reason := none, issueUrl := some "iu" } }

/-- Server fixture for the matcher threshold witness. -/
def serverC5 : Server :=
  { id := 9, repo_owner := "o5", repo_name := "r5", repo_url := "u5"
    stars := 0, forks := 0, last_updated := "2025-02-02" }

/-- Analysis fixture with two detected features. -/
def analysisC5 : Analysis :=
  { score := 8, code_quality := 8, security := 8, documentation := 8, mcp_compliance := 8
    maintenance := true, category := "tools", features := ["search", "files"]
    recommendations := [] }

/-- Issue hit judged at exactly 0.70. -/
def issueC5a : Issue :=
  { repo_owner := "ua", repo_name := "ra", number := 1, html_url := "urlA"
    title := "need search MCP" }

/-- Issue hit judged at 0.6999. -/
def issueC5b : Issue :=
  { repo_owner := "ub", repo_name := "rb", number := 2, html_url := "urlB"
    title := "need files MCP" }

/-- Relevance oracle giving issue 1 the boundary score 0.70 and issue 2 the
score 0.6999. -/
def relC5 (issue : Issue) : RelevanceOutcome :=
  if issue.number = 1 then .parsed { score := 7 / 10, reason := "fits" }
  else .parsed { score := 6999 / 10000, reason := "close" }

/-- Notification record fixture inside the cooldown window. -/
def recC6 : NotifRecord :=
  { id := 1, type := "maintainer", target_repo_owner := "o6", target_repo_name := "r6"
    issue_number := 2, issue_url := "iu6", server_id := 4, sent_at := 1000 }

/-- Target server matching the record above. -/
def serverC6 : Server :=
  { id := 4, repo_owner := "o6", repo_name := "r6", repo_url := "u6"
    stars := 0, forks := 0, last_updated := "2025-03-03" }

/-- Effects for a notify call at time 2000 with the default one-hour
cooldown; every fallible step would succeed. -/
def effC6 : NotifyEffects :=
  { templateOutcome := .ok (), issueOutcome := .ok { number := 9, html_url := "new-issue" }
    insertOutcome := .ok (), uuid := 2, now := 2000, cooldownMs := 3600000 }

/-- Target server for the notify error-catching witness. -/
def serverC7 : Server :=
  { id := 5, repo_owner := "o7", repo_name := "r7", repo_url := "u7"
    stars := 0, forks := 0, last_updated := "2025-04-04" }

/-- Effects whose template construction throws. -/
def effC7 : NotifyEffects :=
  { templateOutcome := .error "template blew up"
    issueOutcome := .ok { number := 1, html_url := "x" }
    insertOutcome := .ok (), uuid := 3, now := 0, cooldownMs := 3600000 }

/-- Store fixture already holding the (oA, rA) candidate. -/
def storeC9 : List (String × String) := [("oA", "rA")]

/-- Search hit whose key pair is already stored. -/
def itemC9a : RepoItem :=
  { owner_login := "oA", name := "rA", html_url := "ua", stargazers_count := 1
    forks_count := 0, updated_at := "2025-05-05" }

/-- Search hit whose key pair is new. -/
def itemC9b : RepoItem :=
  { owner_login := "oB", name := "rB", html_url := "ub", stargazers_count := 2
    forks_count := 0, updated_at := "2025-05-06" }

/-- Pool with a single fresh active credential. -/
def poolC3 : PoolState :=
  ⟨[{ id := "agent-1", apiKey := "k1", model := "llama-3.1-70b-versatile"
      usage := { requests := 0, limit := 30, resetAt := 60000 }, status := .active }], 0⟩

/-- The pool above after one rate-limited call and one successful retry on
the same credential: usage 1, status rate_limited. -/
def poolC3' : PoolState :=
  ⟨[{ id := "agent-1", apiKey := "k1", model := "llama-3.1-70b-versatile"
      usage := { requests := 1, limit := 30, resetAt := 60000 }, status := .rate_limited }], 0⟩

/-- Completion oracle on which every call throws a rate-limit-shaped error. -/
def allRateLimited : Nat → CallOutcome := fun _ => .rateLimitError "rate limit reached"

/-- Completion oracle whose first call throws a rate-limit-shaped error and
whose later calls succeed. -/
def oracleC3mix : Nat → CallOutcome :=
  fun k => if k = 0 then .rateLimitError "rate limit reached" else .success "recovered"

/-- Completion oracle on which every call succeeds. -/
def oracleC3succ : Nat → CallOutcome := fun _ => .success "hello"

-- Helper lemmas shared by the claim theorems below.

/-- The sweep at the top of the second variant's getNextAgent is the
identity, its condition reading the undefined top-level resetAt property. -/
theorem sweepResetV2_eq (now : Int) (agents : List Agent) :
    sweepResetV2 now agents = agents := by
  simp [sweepResetV2, jsNowGeUndefined]

/-- The second variant's getNextAgent reduces to its round-robin loop. -/
theorem getNextAgentV2_eq (now : Int) (st : PoolState) :
    getNextAgentV2 now st = getNextAgentLoopV2 st.agents.length st := by
  simp [getNextAgentV2, sweepResetV2_eq]

/-- A successful acquisition in the second variant leaves the agents array
untouched and returns the index of an eligible agent. -/
theorem getNextAgentLoopV2_ok (fuel : Nat) :
    ∀ (st : PoolState) (idx : Nat) (st' : PoolState),
      getNextAgentLoopV2 fuel st = .ok (idx, st') →
      st'.agents = st.agents ∧ ∃ a, st.agents[idx]? = some a ∧ eligibleV2 a = true := by
  induction fuel with
  | zero => intro st idx st' h; simp [getNextAgentLoopV2] at h
  | succ n ih =>
    intro st idx st' h
    simp only [getNextAgentLoopV2] at h
    split at h
    · simp at h
    · rename_i agent hga
      split at h
      · rename_i he
        simp only [Except.ok.injEq, Prod.mk.injEq] at h
        obtain ⟨h1, h2⟩ := h
        subst h1
        subst h2
        exact ⟨rfl, agent, hga, he⟩
      · rename_i he
        obtain ⟨h1, a, h2, h3⟩ := ih _ idx st' h
        exact ⟨h1, a, h2, h3⟩

/-- With no eligible agent in the pool, the second variant's loop throws the
exhaustion error. -/
theorem getNextAgentLoopV2_exhaust (fuel : Nat) :
    ∀ (st : PoolState), (∀ a ∈ st.agents, eligibleV2 a = false) →
      getNextAgentLoopV2 fuel st = .error exhaustMsgV2 := by
  induction fuel with
  | zero => intro st _; rfl
  | succ n ih =>
    intro st h
    simp only [getNextAgentLoopV2]
    split
    · rfl
    · rename_i agent hga
      have hmem : agent ∈ st.agents := by
        obtain ⟨hlt, heq⟩ := List.getElem?_eq_some.mp hga
        rw [← heq]
        exact List.getElem_mem hlt
      rw [if_neg (by simp [h agent hmem])]
      exact ih _ (fun a ha => h a ha)

/-- The only error the second variant's loop ever throws is the exhaustion
message. -/
theorem getNextAgentLoopV2_error (fuel : Nat) :
    ∀ (st : PoolState) (e : String),
      getNextAgentLoopV2 fuel st = .error e → e = exhaustMsgV2 := by
  induction fuel with
  | zero =>
    intro st e h
    simp only [getNextAgentLoopV2] at h
    injection h with h2
    exact h2.symm
  | succ n ih =>
    intro st e h
    simp only [getNextAgentLoopV2] at h
    split at h
    · injection h with h2
      exact h2.symm
    · rename_i agent hga
      split at h
      · exact absurd h (by simp)
      · exact ih _ e h

/-- Replacing a counted element by an uncounted one lowers countP by one. -/
theorem countP_set_of_mem (p : Agent → Bool) :
    ∀ (l : List Agent) (i : Nat) (a a' : Agent),
      l[i]? = some a → p a = true → p a' = false →
      (l.set i a').countP p + 1 = l.countP p := by
  intro l
  induction l with
  | nil => intro i a a' h; simp at h
  | cons x xs ih =>
    intro i a a' hga hpa hpa'
    cases i with
    | zero =>
      simp only [List.getElem?_cons_zero, Option.some.injEq] at hga
      subst hga
      simp [List.countP_cons, hpa, hpa']
    | succ j =>
      simp only [List.getElem?_cons_succ] at hga
      have h2 := ih j a a' hga hpa hpa'
      simp only [List.set_cons_succ, List.countP_cons]
      omega

/-- On an oracle that always rate-limits, the second variant's execute
terminates by propagating the exhaustion error once every eligible agent has
been marked rate_limited: fuel one above the eligible count suffices. -/
theorem executeV2_allRL (now : Int) :
    ∀ (c : Nat) (st : PoolState) (k fuel : Nat),
      st.agents.countP eligibleV2 ≤ c → c + 1 ≤ fuel →
      executeV2 allRateLimited now fuel k st = some (.error exhaustMsgV2) := by
  intro c
  induction c with
  | zero =>
    intro st k fuel hc hf
    obtain ⟨f, rfl⟩ : ∃ f, fuel = f + 1 := ⟨fuel - 1, by omega⟩
    have hzero : st.agents.countP eligibleV2 = 0 := Nat.le_zero.mp hc
    have hall : ∀ a ∈ st.agents, eligibleV2 a = false := by
      intro a ha
      have := List.countP_eq_zero.mp hzero a ha
      simpa using this
    have herr : getNextAgentV2 now st = .error exhaustMsgV2 := by
      rw [getNextAgentV2_eq]
      exact getNextAgentLoopV2_exhaust _ st hall
    simp [executeV2, herr]
  | succ n ih =>
    intro st k fuel hc hf
    obtain ⟨f, rfl⟩ : ∃ f, fuel = f + 1 := ⟨fuel - 1, by omega⟩
    cases hga : getNextAgentV2 now st with
    | error e =>
      have he : e = exhaustMsgV2 := by
        rw [getNextAgentV2_eq] at hga
        exact getNextAgentLoopV2_error _ st e hga
      subst he
      simp [executeV2, hga]
    | ok pair =>
      obtain ⟨idx, st1⟩ := pair
      have hchar : st1.agents = st.agents
          ∧ ∃ a, st.agents[idx]? = some a ∧ eligibleV2 a = true := by
        rw [getNextAgentV2_eq] at hga
        exact getNextAgentLoopV2_ok _ st idx st1 hga
      obtain ⟨hagents, a, hgae, helig⟩ := hchar
      have hstep : executeV2 allRateLimited now (f + 1) k st =
          executeV2 allRateLimited now f (k + 1) (markRateLimited st1 idx) := by
        simp [executeV2, hga, allRateLimited]
      rw [hstep]
      apply ih
      · have hga1 : st1.agents[idx]? = some a := by rw [hagents]; exact hgae
        have hmark : (markRateLimited st1 idx).agents =
            st1.agents.set idx { a with status := .rate_limited } := by
          simp [markRateLimited, hga1]
        have hcount := countP_set_of_mem eligibleV2 st1.agents idx a
          { a with status := .rate_limited } hga1 helig rfl
        have hsame : st1.agents.countP eligibleV2 = st.agents.countP eligibleV2 := by
          rw [hagents]
        rw [hmark]
        omega
      · omega

/-- Every match produced by the findMatches loop stems from one of the issue
hits, had a judged score of at least 0.7, and is exactly the record built
from that issue's judgment. -/
theorem findMatchesLoop_mem (server : Server) (analysis : Analysis)
    (relOutcome : Issue → RelevanceOutcome) (nowStr : String) :
    ∀ (issues : List Issue) (uuid : Nat),
      ∀ m ∈ findMatchesLoop server analysis relOutcome nowStr issues uuid,
        ∃ issue ∈ issues, ∃ u,
          (7 : Rat) / 10 ≤ (calculateRelevance (relOutcome issue)).score
          ∧ m = mkMatchRec server analysis issue (calculateRelevance (relOutcome issue)) u nowStr := by
  intro issues
  induction issues with
  | nil => intro uuid m hm; simp [findMatchesLoop] at hm
  | cons issue rest ih =>
    intro uuid m hm
    simp only [findMatchesLoop] at hm
    split at hm
    next hsc =>
      rcases List.mem_cons.mp hm with rfl | hm'
      · exact ⟨issue, List.mem_cons_self _ _, uuid, hsc, rfl⟩
      · obtain ⟨i, hi, u, h7, heq⟩ := ih (uuid + 1) m hm'
        exact ⟨i, List.mem_cons_of_mem _ hi, u, h7, heq⟩
    next hsc =>
      obtain ⟨i, hi, u, h7, heq⟩ := ih uuid m hm
      exact ⟨i, List.mem_cons_of_mem _ hi, u, h7, heq⟩

/-- Every issue hit whose judged score reaches 0.7 contributes a match
carrying that score and reason. -/
theorem findMatchesLoop_complete (server : Server) (analysis : Analysis)
    (relOutcome : Issue → RelevanceOutcome) (nowStr : String) :
    ∀ (issues : List Issue) (uuid : Nat) (issue : Issue), issue ∈ issues →
      (7 : Rat) / 10 ≤ (calculateRelevance (relOutcome issue)).score →
      ∃ m ∈ findMatchesLoop server analysis relOutcome nowStr issues uuid,
        m.user_issue_url = issue.html_url
        ∧ m.relevance = (calculateRelevance (relOutcome issue)).score
        ∧ m.reason = (calculateRelevance (relOutcome issue)).reason := by
  intro issues
  induction issues with
  | nil => intro uuid issue h; simp at h
  | cons hd rest ih =>
    intro uuid issue hmem h7
    rcases List.mem_cons.mp hmem with rfl | hmem'
    · simp only [findMatchesLoop]
      rw [if_pos h7]
      exact ⟨_, List.mem_cons_self _ _, rfl, rfl, rfl⟩
    · simp only [findMatchesLoop]
      split
      next =>
        obtain ⟨m, hm, hp⟩ := ih (uuid + 1) issue hmem' h7
        exact ⟨m, List.mem_cons_of_mem _ hm, hp⟩
      next => exact ih uuid issue hmem' h7

/-- checkIfExists agrees with membership of the key pair in the store. -/
theorem checkIfExists_iff (store : List (String × String)) (owner name : String) :
    checkIfExists store owner name = true ↔ (owner, name) ∈ store := by
  constructor
  · intro h
    have hne : (store.filter fun r => decide (r.1 = owner) && decide (r.2 = name)) ≠ [] :=
      List.length_pos.mp (of_decide_eq_true h)
    obtain ⟨r, hr⟩ := List.exists_mem_of_ne_nil _ hne
    obtain ⟨hmem, hp⟩ := List.mem_filter.mp hr
    obtain ⟨r1, r2⟩ := r
    simp only [Bool.and_eq_true, decide_eq_true_eq] at hp
    obtain ⟨h1, h2⟩ := hp
    subst h1; subst h2
    exact hmem
  · intro h
    apply decide_eq_true
    have hmem : (owner, name) ∈
        store.filter (fun r => decide (r.1 = owner) && decide (r.2 = name)) :=
      List.mem_filter.mpr ⟨h, by simp⟩
    exact List.length_pos.mpr (List.ne_nil_of_mem hmem)

/-- Every candidate returned by the discovery loop stems from one of the
search hits, was absent from the store, and has an id at or above the
counter's start. -/
theorem scanNewServersLoop_mem (store : List (String × String)) :
    ∀ (items : List RepoItem) (uuid : Nat) (s : Server),
      s ∈ scanNewServersLoop store items uuid →
      (∃ item ∈ items, s.repo_owner = item.owner_login ∧ s.repo_name = item.name)
      ∧ checkIfExists store s.repo_owner s.repo_name = false ∧ uuid ≤ s.id := by
  intro items
  induction items with
  | nil => intro uuid s hs; simp [scanNewServersLoop] at hs
  | cons item rest ih =>
    intro uuid s hs
    simp only [scanNewServersLoop] at hs
    split at hs
    next hex =>
      obtain ⟨⟨i, hi, hfields⟩, hnotex, hle⟩ := ih uuid s hs
      exact ⟨⟨i, List.mem_cons_of_mem _ hi, hfields⟩, hnotex, hle⟩
    next hex =>
      rcases List.mem_cons.mp hs with rfl | hs'
      · refine ⟨⟨item, List.mem_cons_self _ _, rfl, rfl⟩, ?_, le_refl _⟩
        simpa using hex
      · obtain ⟨⟨i, hi, hfields⟩, hnotex, hle⟩ := ih (uuid + 1) s hs'
        exact ⟨⟨i, List.mem_cons_of_mem _ hi, hfields⟩, hnotex, Nat.le_of_succ_le hle⟩

/-- Every search hit absent from the store contributes a candidate. -/
theorem scanNewServersLoop_included (store : List (String × String)) :
    ∀ (items : List RepoItem) (uuid : Nat) (item : RepoItem), item ∈ items →
      checkIfExists store item.owner_login item.name = false →
      ∃ s ∈ scanNewServersLoop store items uuid,
        s.repo_owner = item.owner_login ∧ s.repo_name = item.name := by
  intro items
  induction items with
  | nil => intro uuid item h; simp at h
  | cons hd rest ih =>
    intro uuid item hmem hnotex
    rcases List.mem_cons.mp hmem with rfl | hmem'
    · simp only [scanNewServersLoop]
      rw [if_neg (by simp [hnotex])]
      exact ⟨_, List.mem_cons_self _ _, rfl, rfl⟩
    · simp only [scanNewServersLoop]
      split
      next => exact ih uuid item hmem' hnotex
      next =>
        obtain ⟨s, hs, hf⟩ := ih (uuid + 1) item hmem' hnotex
        exact ⟨s, List.mem_cons_of_mem _ hs, hf⟩

/-- The ids handed out by the discovery loop are pairwise distinct. -/
theorem scanNewServersLoop_ids_nodup (store : List (String × String)) :
    ∀ (items : List RepoItem) (uuid : Nat),
      ((scanNewServersLoop store items uuid).map fun s => s.id).Nodup := by
  intro items
  induction items with
  | nil => intro uuid; simp [scanNewServersLoop]
  | cons hd rest ih =>
    intro uuid
    simp only [scanNewServersLoop]
    split
    next => exact ih uuid
    next =>
      simp only [List.map_cons]
      refine List.nodup_cons.mpr ⟨?_, ih (uuid + 1)⟩
      intro hmem
      obtain ⟨s, hs, hid⟩ := List.mem_map.mp hmem
      have hid2 : s.id = uuid := hid
      have hge := (scanNewServersLoop_mem store rest (uuid + 1) s hs).2.2
      omega

-- Theorems.  One theorem per claim of the specification, with its witness or
-- counterexample where required.

/-- C10: constructing the pool with zero configured non-empty API keys throws
'At least one GROQ_API_KEY must be configured'; with at least one non-empty
key it yields exactly one agent per non-empty key, each starting with usage
count 0, quota 30 and status active. -/
theorem c10_initializeAgents (keys : List (Option String)) (now : Int) :
    (filterGroqKeys keys = [] →
      initializeAgents keys now = .error "At least one GROQ_API_KEY must be configured")
  ∧ (filterGroqKeys keys ≠ [] →
      ∃ agents, initializeAgents keys now = .ok agents
        ∧ agents.length = (filterGroqKeys keys).length
        ∧ ∀ a ∈ agents, a.usage.requests = 0 ∧ a.usage.limit = 30 ∧ a.status = .active) := by
  constructor
  · intro h
    simp [initializeAgents, h]
  · intro h
    have hlen : ¬((filterGroqKeys keys).length = 0) := by
      simpa [List.length_eq_zero] using h
    refine ⟨((filterGroqKeys keys).enum.map fun p =>
        { id := "agent-" ++ toString (p.1 + 1)
          apiKey := p.2
          model := "llama-3.1-70b-versatile"
          usage := { requests := 0, limit := 30, resetAt := now + 60000 }
          status := .active }), by simp [initializeAgents, hlen], by simp, ?_⟩
    intro a ha
    rcases List.mem_map.mp ha with ⟨p, _, rfl⟩
    exact ⟨rfl, rfl, rfl⟩

/-- C10 witness: two non-empty keys among four slots give a two-agent pool
with the initial counters; no non-empty key gives the throw. -/
theorem c10_initializeAgents_witness :
    initializeAgents [none, some ""] 7 = .error "At least one GROQ_API_KEY must be configured"
  ∧ ∃ agents, initializeAgents [some "k1", none, some "", some "k2"] 7 = .ok agents
      ∧ agents.length = 2
      ∧ ∀ a ∈ agents, a.usage.requests = 0 ∧ a.usage.limit = 30 ∧ a.status = .active := by
  refine ⟨(c10_initializeAgents [none, some ""] 7).1 (by decide), ?_⟩
  obtain ⟨agents, hok, hlen, hfields⟩ :=
    (c10_initializeAgents [some "k1", none, some "", some "k2"] 7).2 (by decide)
  exact ⟨agents, hok, by rw [hlen]; decide, hfields⟩

/-- C2: at the failing input (a single active credential at quota 30/30 whose
window elapsed at time 60000, inspected at time 200000) both variants of
getNextAgent throw the exhaustion error instead of resetting the credential
and returning it: the second variant's lazy sweep reads the nonexistent
top-level resetAt property so it never fires, and the first variant tests the
quota before the window reset so the elapsed credential is skipped.  The last
conjunct records that the window had indeed elapsed. -/
theorem c2_reset_dead_code :
    getNextAgentV2 200000 poolC2 = .error exhaustMsgV2
  ∧ getNextAgentV1 200000 poolC2 = .error exhaustMsgV1
  ∧ (poolC2.agents.map fun a => decide (a.usage.resetAt ≤ 200000)) = [true] :=
  ⟨rfl, rfl, rfl⟩

/-- C4 counterexample: on a response with no parseable JSON object the second
variant's analyzeServer returns a default whose recommendation list is the
fixed one-element message, not the empty list the claim states. -/
theorem c4_default_counterexample :
    (analyzeServerV2 AnalyzeOutcome.noJson).recommendations =
      ["Unable to analyze - please check repository"]
  ∧ (analyzeServerV2 AnalyzeOutcome.noJson).recommendations ≠ [] :=
  ⟨rfl, by decide⟩

/-- C4 amended: on every outcome that is not a parsed analysis (no JSON
object, JSON parse failure, or a thrown service call) both analyzers return
their fixed neutral default and never propagate an error (they are total);
the default has overall score 5.0, all four sub-scores 5.0,
maintenance=false, category 'utility' and empty feature list in both
variants, and its recommendation list is empty in the first variant but the
single fixed message in the second. -/
theorem c4_default_amended (o : AnalyzeOutcome) (h : ∀ a, o ≠ AnalyzeOutcome.parsed a) :
    (analyzeServerV1 o = defaultAnalysisV1 ∧ analyzeServerV2 o = defaultAnalysisV2)
  ∧ (defaultAnalysisV1.score = 5 ∧ defaultAnalysisV1.code_quality = 5
      ∧ defaultAnalysisV1.security = 5 ∧ defaultAnalysisV1.documentation = 5
      ∧ defaultAnalysisV1.mcp_compliance = 5 ∧ defaultAnalysisV1.maintenance = false
      ∧ defaultAnalysisV1.category = "utility" ∧ defaultAnalysisV1.features = []
      ∧ defaultAnalysisV1.recommendations = [])
  ∧ (defaultAnalysisV2.score = 5 ∧ defaultAnalysisV2.code_quality = 5
      ∧ defaultAnalysisV2.security = 5 ∧ defaultAnalysisV2.documentation = 5
      ∧ defaultAnalysisV2.mcp_compliance = 5 ∧ defaultAnalysisV2.maintenance = false
      ∧ defaultAnalysisV2.category = "utility" ∧ defaultAnalysisV2.features = []
      ∧ defaultAnalysisV2.recommendations = ["Unable to analyze - please check repository"]) := by
  refine ⟨?_, by decide, by decide⟩
  cases o with
  | parsed a => exact absurd rfl (h a)
  | noJson => exact ⟨rfl, rfl⟩
  | parseFailed msg => exact ⟨rfl, rfl⟩
  | serviceFailed msg => exact ⟨rfl, rfl⟩

/-- C4 amended witness: the no-JSON outcome yields the defaults. -/
theorem c4_default_amended_witness :
    analyzeServerV1 AnalyzeOutcome.noJson = defaultAnalysisV1
  ∧ analyzeServerV2 AnalyzeOutcome.noJson = defaultAnalysisV2 :=
  (c4_default_amended AnalyzeOutcome.noJson (fun a h => by cases h)).1

/-- C8: for a candidate whose store INSERTs succeed, the orchestrator's
per-candidate body invokes the notifier exactly when the notification gate
passes, and the gate passes iff the match list is non-empty and the analysis
score is at least 7.0 (both thresholds inclusive). -/
theorem c8_notification_gate (env : OrchEnv) (server : Server)
    (h1 : env.insertServer server (env.analysis server) = .ok ())
    (h2 : insertMatchesLoop env.insertMatch
            (env.foundMatches server (env.analysis server)) = .ok ()) :
    processServerBody env server =
      .ok (notifyGate (env.foundMatches server (env.analysis server)) (env.analysis server))
  ∧ (notifyGate (env.foundMatches server (env.analysis server)) (env.analysis server) = true
      ↔ env.foundMatches server (env.analysis server) ≠ []
        ∧ (7 : Rat) ≤ (env.analysis server).score) := by
  constructor
  · cases hg : notifyGate (env.foundMatches server (env.analysis server)) (env.analysis server) <;>
      simp [processServerBody, h1, h2, hg]
  · simp [notifyGate, List.length_pos]

/-- C8 witness: analysis score exactly 7.0 with a single match of relevance
exactly 0.70 invokes the notifier; the gate is inclusive on both. -/
theorem c8_notification_gate_witness :
    processServerBody envC8 serverC8 = .ok true
  ∧ (envC8.foundMatches serverC8 (envC8.analysis serverC8) ≠ []
      ∧ (7 : Rat) ≤ (envC8.analysis serverC8).score)
  ∧ matchC8.relevance = 7 / 10 := by
  have h := c8_notification_gate envC8 serverC8 rfl rfl
  refine ⟨?_, h.2.mp (by decide), rfl⟩
  rw [h.1]
  rfl

/-- C5: a match is materialized for a judged issue iff the judged score
reaches 0.7 (equality qualifies), and every materialized match carries the
judgment's score and reason, the JSON snapshot of the analysis feature list,
and status 'pending'. -/
theorem c5_findMatches_threshold (server : Server) (analysis : Analysis)
    (relOutcome : Issue → RelevanceOutcome) (uuid0 : Nat) (nowStr : String)
    (issues : List Issue) :
    (∀ m ∈ findMatches server analysis (.ok issues) relOutcome uuid0 nowStr,
        (7 : Rat) / 10 ≤ m.relevance
      ∧ m.features = jsonStringifyList analysis.features
      ∧ m.status = "pending"
      ∧ ∃ issue ∈ issues,
          m.relevance = (calculateRelevance (relOutcome issue)).score
        ∧ m.reason = (calculateRelevance (relOutcome issue)).reason)
  ∧ (∀ issue ∈ issues,
      (7 : Rat) / 10 ≤ (calculateRelevance (relOutcome issue)).score →
      ∃ m ∈ findMatches server analysis (.ok issues) relOutcome uuid0 nowStr,
        m.user_issue_url = issue.html_url
      ∧ m.relevance = (calculateRelevance (relOutcome issue)).score
      ∧ m.reason = (calculateRelevance (relOutcome issue)).reason) := by
  constructor
  · intro m hm
    obtain ⟨issue, hi, u, h7, rfl⟩ :=
      findMatchesLoop_mem server analysis relOutcome nowStr issues uuid0 m hm
    exact ⟨h7, rfl, rfl, issue, hi, rfl, rfl⟩
  · intro issue hi h7
    exact findMatchesLoop_complete server analysis relOutcome nowStr issues uuid0 issue hi h7

/-- C5 witness: of two issue hits judged at exactly 0.70 and at 0.6999, only
the first is materialized, and its match carries score, reason and the
pending status. -/
theorem c5_findMatches_threshold_witness :
    (∃ m ∈ findMatches serverC5 analysisC5 (.ok [issueC5a, issueC5b]) relC5 0 "t",
        m.user_issue_url = "urlA" ∧ m.relevance = 7 / 10 ∧ m.reason = "fits")
  ∧ (findMatches serverC5 analysisC5 (.ok [issueC5a, issueC5b]) relC5 0 "t").length = 1
  ∧ (calculateRelevance (relC5 issueC5b)).score < 7 / 10 := by
  have hja : calculateRelevance (relC5 issueC5a) = { score := 7 / 10, reason := "fits" } := by
    simp [relC5, issueC5a, calculateRelevance]
  have hjb : calculateRelevance (relC5 issueC5b) =
      { score := 6999 / 10000, reason := "close" } := by
    simp [relC5, issueC5b, calculateRelevance]
  have e1 : (7 : Rat) / 10 ≤ (calculateRelevance (relC5 issueC5a)).score := by
    rw [hja]
  have e2 : ¬((7 : Rat) / 10 ≤ (calculateRelevance (relC5 issueC5b)).score) := by
    rw [hjb]; norm_num
  refine ⟨?_, ?_, by rw [hjb]; norm_num⟩
  · obtain ⟨m, hm, h1, h2, h3⟩ :=
      (c5_findMatches_threshold serverC5 analysisC5 relC5 0 "t" [issueC5a, issueC5b]).2
        issueC5a (by simp) e1
    refine ⟨m, hm, ?_, ?_, ?_⟩
    · rw [h1]; rfl
    · rw [h2, hja]
    · rw [h3, hja]
  · simp [findMatches, findMatchesLoop, e1, e2]

/-- C6: whenever the notifications table holds a record for the target whose
sent_at lies inside the cooldown window, notifyMaintainer sends nothing: the
result is { success: false, reason: 'cooldown' } and the table is returned
unchanged, so no second record for that target is inserted inside the
window. -/
theorem c6_cooldown_no_second_record (db : List NotifRecord) (server : Server)
    (eff : NotifyEffects) (r : NotifRecord) (hr : r ∈ db)
    (ho : r.target_repo_owner = server.repo_owner)
    (hn : r.target_repo_name = server.repo_name)
    (hs : eff.now - eff.cooldownMs < r.sent_at) :
    notifyMaintainer db server eff =
      ({ success := false, reason := some "cooldown", issueUrl := none }, db) := by
  have hmem : r ∈ db.filter (fun x =>
      decide (x.target_repo_owner = server.repo_owner)
      && decide (x.target_repo_name = server.repo_name)
      && decide (eff.now - eff.cooldownMs < x.sent_at)) :=
    List.mem_filter.mpr ⟨hr, by simp [ho, hn, hs]⟩
  have hcc : checkNotificationCooldown db server.repo_owner server.repo_name
      eff.now eff.cooldownMs = false := by
    simp only [checkNotificationCooldown, decide_eq_false_iff_not]
    intro h0
    rw [List.length_eq_zero] at h0
    rw [h0] at hmem
    exact absurd hmem (List.not_mem_nil r)
  simp [notifyMaintainer, hcc]

/-- C6 witness: a record sent at time 1000 blocks a notify attempt at time
2000 under the default one-hour cooldown, leaving the table unchanged. -/
theorem c6_cooldown_no_second_record_witness :
    notifyMaintainer [recC6] serverC6 effC6 =
      ({ success := false, reason := some "cooldown", issueUrl := none }, [recC6]) :=
  c6_cooldown_no_second_record [recC6] serverC6 effC6 recC6 (by simp) rfl rfl (by decide)

/-- C7: with the cooldown passed, a throw from template construction, from
the external issue creation, or from the notification-record INSERT is
caught inside notifyMaintainer and returned as { success: false, reason }
with the table unchanged; the function is total, so no exception reaches
the orchestrator. -/
theorem c7_notify_never_raises (db : List NotifRecord) (server : Server)
    (eff : NotifyEffects)
    (hcc : checkNotificationCooldown db server.repo_owner server.repo_name
             eff.now eff.cooldownMs = true) :
    (∀ e, eff.templateOutcome = .error e →
        notifyMaintainer db server eff =
          ({ success := false, reason := some e, issueUrl := none }, db))
  ∧ (∀ e, eff.templateOutcome = .ok () → eff.issueOutcome = .error e →
        notifyMaintainer db server eff =
          ({ success := false, reason := some e, issueUrl := none }, db))
  ∧ (∀ e issue, eff.templateOutcome = .ok () → eff.issueOutcome = .ok issue →
        eff.insertOutcome = .error e →
        notifyMaintainer db server eff =
          ({ success := false, reason := some e, issueUrl := none }, db)) := by
  refine ⟨?_, ?_, ?_⟩ <;> intros <;> simp_all [notifyMaintainer]

/-- C7 witness: a throwing template construction on an empty table yields
the structured failure. -/
theorem c7_notify_never_raises_witness :
    notifyMaintainer [] serverC7 effC7 =
      ({ success := false, reason := some "template blew up", issueUrl := none }, []) :=
  (c7_notify_never_raises [] serverC7 effC7 rfl).1 "template blew up" rfl

/-- C9: discovery includes a searched repo in its result iff its
(owner, name) key pair is absent from the store, and every included
candidate receives a fresh identifier distinct from all others of the
batch. -/
theorem c9_discovery_excludes_existing (store : List (String × String))
    (items : List RepoItem) (uuid0 : Nat) (result : List Server)
    (hres : scanNewServers (.ok items) store uuid0 = .ok result) :
    (∀ item ∈ items,
      ((item.owner_login, item.name) ∉ store ↔
        ∃ s ∈ result, s.repo_owner = item.owner_login ∧ s.repo_name = item.name))
  ∧ (result.map fun s => s.id).Nodup := by
  have hres' : result = scanNewServersLoop store items uuid0 := by
    simpa [scanNewServers] using hres.symm
  subst hres'
  constructor
  · intro item hitem
    constructor
    · intro hnot
      cases hex : checkIfExists store item.owner_login item.name with
      | false => exact scanNewServersLoop_included store items uuid0 item hitem hex
      | true => exact absurd ((checkIfExists_iff store _ _).mp hex) hnot
    · rintro ⟨s, hs, hofield, hnfield⟩ hmem
      have h := (scanNewServersLoop_mem store items uuid0 s hs).2.1
      rw [hofield, hnfield] at h
      exact absurd ((checkIfExists_iff store item.owner_login item.name).mpr hmem)
        (by simp [h])
  · exact scanNewServersLoop_ids_nodup store items uuid0

/-- C9 witness: of two search hits, the one already stored is excluded, the
new one is included, and the batch ids are distinct. -/
theorem c9_discovery_excludes_existing_witness :
    (∃ s ∈ scanNewServersLoop storeC9 [itemC9a, itemC9b] 0,
        s.repo_owner = "oB" ∧ s.repo_name = "rB")
  ∧ ¬(∃ s ∈ scanNewServersLoop storeC9 [itemC9a, itemC9b] 0,
        s.repo_owner = "oA" ∧ s.repo_name = "rA")
  ∧ ((scanNewServersLoop storeC9 [itemC9a, itemC9b] 0).map fun s => s.id).Nodup := by
  have h := c9_discovery_excludes_existing storeC9 [itemC9a, itemC9b] 0 _ rfl
  refine ⟨(h.1 itemC9b (by simp)).mp (by decide), ?_, h.2⟩
  intro hex
  exact (h.1 itemC9a (by simp)).mpr hex (by decide)

/-- C1 counterexample: in the first variant a throw from the per-candidate
store INSERT aborts the whole batch and the run returns
{ success: false, error } even though the discovery call succeeded (first
conjunct), refuting the claim that a candidate-level exception is caught and
that { success: false } arises only from a discovery failure. -/
theorem c1_orchestrator_counterexample :
    envC1.scanResult = .ok [serverC1]
  ∧ scanAndAnalyzeV1 envC1 =
      { success := false, processed := none, error := some "db write failed" } :=
  ⟨rfl, rfl⟩

/-- C1 amended: the claim holds as stated for the second variant, whose
per-candidate try/catch absorbs any exception raised while processing one
candidate: whenever discovery succeeds, every candidate of the batch is
processed and the run returns { success: true, processed: count }, and it
returns { success: false, error } exactly when the discovery call itself
threw.  In the first variant, which lacks the per-candidate catch,
enrichment, analysis, matching and notification failures are still absorbed
inside those components, but a persistence throw while processing one
candidate also ends the run with { success: false, error }. -/
theorem c1_orchestrator_amended (env : OrchEnv) :
    (∀ servers, env.scanResult = .ok servers →
        scanAndAnalyzeV2 env =
          ({ success := true, processed := some servers.length, error := none },
           servers.map (processServerV2 env)))
  ∧ (∀ e, env.scanResult = .error e →
        scanAndAnalyzeV2 env =
          ({ success := false, processed := none, error := some e }, [])
      ∧ scanAndAnalyzeV1 env =
          { success := false, processed := none, error := some e }) := by
  constructor
  · intro servers h
    simp [scanAndAnalyzeV2, h]
  · intro e h
    constructor <;> simp [scanAndAnalyzeV2, scanAndAnalyzeV1, h]

/-- C1 amended witness: with two candidates whose first INSERT throws, the
second variant still processes both and reports success with the batch
count; a failing discovery call yields the error result in both variants. -/
theorem c1_orchestrator_amended_witness :
    scanAndAnalyzeV2 envC1W =
      ({ success := true, processed := some 2, error := none }, [false, false])
  ∧ scanAndAnalyzeV2 envC1E =
      ({ success := false, processed := none, error := some "github 401" }, [])
  ∧ scanAndAnalyzeV1 envC1E =
      { success := false, processed := none, error := some "github 401" } := by
  have h1 := (c1_orchestrator_amended envC1W).1 [serverC1, serverC1b] rfl
  have h2 := (c1_orchestrator_amended envC1E).2 "github 401" rfl
  exact ⟨h1, h2.1, h2.2⟩

/-- C3 counterexample: with a single credential, the first variant's execute
marks it rate_limited after a rate-limit-shaped error, but the first
variant's getNextAgent never consults status, so the retry immediately
re-acquires that same credential and the call returns the success text
(final pool: the one credential with usage 1 and status rate_limited)
instead of the exhaustion error that the claim says must end the
recursion. -/
theorem c3_execute_counterexample :
    executeV1 oracleC3mix 0 3 0 poolC3 = some (.ok ("recovered", poolC3', 2))
  ∧ executeV1 oracleC3mix 0 3 0 poolC3 ≠ some (.error exhaustMsgV1) := by
  have h : executeV1 oracleC3mix 0 3 0 poolC3 = some (.ok ("recovered", poolC3', 2)) := rfl
  exact ⟨h, by rw [h]; simp⟩

/-- C3 amended: in the second variant, execute acquires a credential, on a
successful response increments its usage counter and returns the text, on a
rate-limit-shaped error sets that credential's status to rate_limited and
recurses with the same prompt, and, when every completion call rate-limits,
the recursion terminates with the exhaustion error thrown by getNextAgent
propagating to the caller (fuel one above the eligible-credential count
suffices).  In the first variant getNextAgent ignores the rate_limited
status, so the same credential is re-acquired and the exhaustion error is
not reached. -/
theorem c3_execute_amended :
    (∀ (oracle : Nat → CallOutcome) (now : Int) (fuel k : Nat) (st st1 : PoolState)
        (idx : Nat) (text : String),
        getNextAgentV2 now st = .ok (idx, st1) → oracle k = .success text →
        executeV2 oracle now (fuel + 1) k st = some (.ok (text, bumpUsage st1 idx, k + 1)))
  ∧ (∀ (oracle : Nat → CallOutcome) (now : Int) (fuel k : Nat) (st st1 : PoolState)
        (idx : Nat) (msg : String),
        getNextAgentV2 now st = .ok (idx, st1) → oracle k = .rateLimitError msg →
        executeV2 oracle now (fuel + 1) k st =
          executeV2 oracle now fuel (k + 1) (markRateLimited st1 idx))
  ∧ (∀ (st : PoolState) (idx : Nat) (a : Agent), st.agents[idx]? = some a →
        (markRateLimited st idx).agents =
          st.agents.set idx { a with status := AgentStatus.rate_limited })
  ∧ (∀ (now : Int) (c : Nat) (st : PoolState) (k fuel : Nat),
        st.agents.countP eligibleV2 ≤ c → c + 1 ≤ fuel →
        executeV2 allRateLimited now fuel k st = some (.error exhaustMsgV2)) := by
  refine ⟨?_, ?_, ?_, ?_⟩
  · intro oracle now fuel k st st1 idx text h1 h2
    simp [executeV2, h1, h2]
  · intro oracle now fuel k st st1 idx msg h1 h2
    simp [executeV2, h1, h2]
  · intro st idx a h
    simp [markRateLimited, h]
  · intro now c st k fuel h1 h2
    exact executeV2_allRL now c st k fuel h1 h2

/-- C3 amended witness: on a one-credential pool a successful first call
returns the text with the usage counter bumped, and under persistent
rate-limiting the call ends with the exhaustion error. -/
theorem c3_execute_amended_witness :
    executeV2 oracleC3succ 0 1 0 poolC3 =
      some (.ok ("hello", bumpUsage ⟨poolC3.agents, 1 % 1⟩ 0, 1))
  ∧ executeV2 allRateLimited 0 2 0 poolC3 = some (.error exhaustMsgV2) := by
  constructor
  · exact c3_execute_amended.1 oracleC3succ 0 0 0 poolC3 ⟨poolC3.agents, 1 % 1⟩ 0 "hello" rfl rfl
  · exact c3_execute_amended.2.2.2 0 1 poolC3 0 2 (by decide) (by omega)

end NexusMCP
